import Mathlib

/-!
# Verification of the authentik OAuth2 Authorization endpoint

Shallow embedding of `authentik/providers/oauth2/views/authorize.py`:
the request-parameter validation pipeline (`OAuthAuthorizationParams`),
the redirect-URI matcher, the scope/nonce/PKCE checks, and the
fulfillment stage (`OAuthFulfillmentStage`) with its response builder
(`create_response_uri` / `create_implicit_response`) and delivery
(`redirect`, including the form-post autosubmit path).

Wire-level helpers model the Python standard library functions the view
uses (`urllib.parse.urlencode`, `parse_qs`, `urlsplit`, `urlparse` scheme
extraction), operating on UTF-8 byte lists.
-/

namespace Authorize

/-! ## Wire model: bytes, UTF-8, `urlencode` and `parse_qs`

Payload values travel as byte lists (`List Nat`, each `< 256`), matching
the bytes-on-the-wire view of `application/x-www-form-urlencoded`.
-/

/-- All entries of a byte list are actual bytes. -/
def byteValid (l : List Nat) : Prop := ∀ b ∈ l, b < 256

instance (l : List Nat) : Decidable (byteValid l) := by
  unfold byteValid; infer_instance

/-- UTF-8 encoding of a single code point (RFC 3629). -/
def cpBytes (n : Nat) : List Nat :=
  if n < 0x80 then [n]
  else if n < 0x800 then [0xC0 + n / 0x40, 0x80 + n % 0x40]
  else if n < 0x10000 then
    [0xE0 + n / 0x1000, 0x80 + (n / 0x40) % 0x40, 0x80 + n % 0x40]
  else
    [0xF0 + n / 0x40000, 0x80 + (n / 0x1000) % 0x40, 0x80 + (n / 0x40) % 0x40,
      0x80 + n % 0x40]

/-- UTF-8 encoding of a single character. -/
def charBytes (c : Char) : List Nat := cpBytes c.toNat

/-- UTF-8 bytes of a string, as Python's `str.encode()` produces them. -/
def utf8Bytes (s : String) : List Nat :=
  (s.data.map charBytes).flatten

/-- Bytes never quoted by `urllib.parse.quote` (its `_ALWAYS_SAFE` set):
ASCII letters, digits, and `_ . - ~`. -/
def safeByte (b : Nat) : Bool :=
  (48 ≤ b && b ≤ 57) || (65 ≤ b && b ≤ 90) || (97 ≤ b && b ≤ 122) ||
    b = 95 || b = 46 || b = 45 || b = 126

/-- Uppercase hex digit byte for a nibble, as `urllib.parse.quote` emits. -/
def hexU (n : Nat) : Nat := if n < 10 then 48 + n else 55 + n

/-- `urllib.parse.quote_plus` on one byte: safe bytes pass through, space
becomes `+` (43), everything else becomes `%XX`. -/
def quoteByte (b : Nat) : List Nat :=
  if safeByte b then [b]
  else if b = 32 then [43]
  else [37, hexU (b / 16), hexU (b % 16)]

/-- `urllib.parse.quote_plus` over a byte string. -/
def quotePlusB (v : List Nat) : List Nat :=
  (v.map quoteByte).flatten

/-- One `key=value` field of `urllib.parse.urlencode`. -/
def encPair (p : List Nat × List Nat) : List Nat :=
  quotePlusB p.1 ++ 61 :: quotePlusB p.2

/-- `urllib.parse.urlencode`: fields joined by `&` (38). -/
def urlencodeB : List (List Nat × List Nat) → List Nat
  | [] => []
  | [p] => encPair p
  | p :: q :: rest => encPair p ++ 38 :: urlencodeB (q :: rest)

/-- Split a byte string on `&` (38), like `str.split('&')`. -/
def splitAmp : List Nat → List (List Nat)
  | [] => [[]]
  | b :: rest =>
    match splitAmp rest with
    | [] => [[b]]
    | g :: gs => if b = 38 then [] :: g :: gs else (b :: g) :: gs

/-- Split a byte string at the first `=` (61), like `str.split('=', 1)`;
`none` when there is no `=`. -/
def splitEq : List Nat → Option (List Nat × List Nat)
  | [] => none
  | b :: rest =>
    if b = 61 then some ([], rest)
    else (splitEq rest).map (fun p => (b :: p.1, p.2))

/-- Is `b` an ASCII hex digit byte? -/
def isHexB (b : Nat) : Bool :=
  (48 ≤ b && b ≤ 57) || (65 ≤ b && b ≤ 70) || (97 ≤ b && b ≤ 102)

/-- Value of an ASCII hex digit byte. -/
def hexVal (b : Nat) : Nat :=
  if 48 ≤ b && b ≤ 57 then b - 48
  else if 65 ≤ b && b ≤ 70 then b - 55
  else b - 87

/-- Scanner for `unquote_plus`. The state holds a pending escape:
`none` = plain scanning, `some none` = just saw `%`, `some (some h)` =
saw `%` and hex digit `h`. `+` turns into a space everywhere (Python
replaces `+` before unquoting); a malformed escape is emitted verbatim. -/
def uqAux : List Nat → Option (Option Nat) → List Nat
  | [], none => []
  | [], some none => [37]
  | [], some (some h) => [37, h]
  | b :: rest, none =>
    if b = 43 then 32 :: uqAux rest none
    else if b = 37 then uqAux rest (some none)
    else b :: uqAux rest none
  | b :: rest, some none =>
    if isHexB b then uqAux rest (some (some b))
    else if b = 43 then 37 :: 32 :: uqAux rest none
    else if b = 37 then 37 :: uqAux rest (some none)
    else 37 :: b :: uqAux rest none
  | b :: rest, some (some h) =>
    if isHexB b then (hexVal h * 16 + hexVal b) :: uqAux rest none
    else if b = 43 then 37 :: h :: 32 :: uqAux rest none
    else if b = 37 then 37 :: h :: uqAux rest (some none)
    else 37 :: h :: b :: uqAux rest none

/-- `urllib.parse.unquote_plus`: `+` becomes space, valid `%XX` decodes,
malformed escapes pass through unchanged. -/
def unquotePlusB (l : List Nat) : List Nat := uqAux l none

/-- One field of `urllib.parse.parse_qsl` with default options
(`keep_blank_values=False`, `strict_parsing=False`): empty fields,
fields without `=`, and fields with an empty value are all skipped. -/
def parseField (f : List Nat) : Option (List Nat × List Nat) :=
  if f = [] then none
  else
    match splitEq f with
    | none => none
    | some (n, v) =>
      if v = [] then none else some (unquotePlusB n, unquotePlusB v)

/-- `urllib.parse.parse_qsl` with default options. -/
def parseQsl (bs : List Nat) : List (List Nat × List Nat) :=
  (splitAmp bs).filterMap parseField

/-- Append one parsed pair into grouped form (`parse_qs` dict building:
first occurrence fixes the key's position, later values are appended). -/
def addToGroups (k v : List Nat) :
    List (List Nat × List (List Nat)) → List (List Nat × List (List Nat))
  | [] => [(k, [v])]
  | (k', vs) :: rest =>
    if k' = k then (k', vs ++ [v]) :: rest else (k', vs) :: addToGroups k v rest

/-- `urllib.parse.parse_qs`: parsed pairs grouped by key. -/
def parseQsGroups (bs : List Nat) : List (List Nat × List (List Nat)) :=
  (parseQsl bs).foldl (fun acc p => addToGroups p.1 p.2 acc) []

/-- First value stored under a key in an association list (Python dict
lookup for dicts whose keys are unique, and `parse_qs(...)[k][0]`). -/
def assocFind (k : List Nat) : List (List Nat × List Nat) → Option (List Nat)
  | [] => none
  | p :: rest => if p.1 = k then some p.2 else assocFind k rest

/-- First value list stored under a key in a grouped association list. -/
def assocFindG (k : List Nat) :
    List (List Nat × List (List Nat)) → Option (List (List Nat))
  | [] => none
  | p :: rest => if p.1 = k then some p.2 else assocFindG k rest

/-- Python dict assignment `d[k] = v`: update in place if the key exists
(keeping its position), else append at the end. -/
def dictSet (k : List Nat) (v : List (List Nat)) :
    List (List Nat × List (List Nat)) → List (List Nat × List (List Nat))
  | [] => [(k, v)]
  | p :: rest => if p.1 = k then (k, v) :: rest else p :: dictSet k v rest

example : utf8Bytes "state" = [115, 116, 97, 116, 101] := by decide
example : quotePlusB (utf8Bytes "a b&c") = utf8Bytes "a+b%26c" := by decide
example : parseQsl (urlencodeB [(utf8Bytes "code", utf8Bytes "xy"),
    (utf8Bytes "state", [])]) = [(utf8Bytes "code", utf8Bytes "xy")] := by decide

/-! ## URL splitting and scheme extraction (`urllib.parse.urlsplit` /
`urlparse`) -/

/-- Split a byte string at the first occurrence of byte `sep`:
`(before, some after)` or `(l, none)` when `sep` is absent. -/
def splitFirst (sep : Nat) : List Nat → List Nat × Option (List Nat)
  | [] => ([], none)
  | b :: rest =>
    if b = sep then ([], some rest)
    else
      match splitFirst sep rest with
      | (pre, post) => (b :: pre, post)

/-- The pieces of `urllib.parse.urlsplit` that the view reads: everything
before the query separator, the query string, and the fragment. -/
structure SplitUriB where
  base : List Nat
  query : List Nat
  fragment : List Nat
deriving DecidableEq

/-- `urllib.parse.urlsplit`: the fragment is everything after the first
`#` (35); the query is everything after the first `?` (63) before it. -/
def urlsplitB (u : List Nat) : SplitUriB :=
  match splitFirst 35 u with
  | (prefrag, frag) =>
    match splitFirst 63 prefrag with
    | (base, q) => ⟨base, q.getD [], frag.getD []⟩

/-- Characters allowed in a URL scheme after the first (urllib's
`scheme_chars`): ASCII letters, digits, `+`, `-`, `.`. -/
def schemeChar (c : Char) : Bool :=
  c.isAlphanum || c = '+' || c = '-' || c = '.'

/-- Find the characters before the first `:`; `none` when absent. -/
def beforeColon : List Char → Option (List Char)
  | [] => none
  | c :: rest =>
    if c = ':' then some []
    else (beforeColon rest).map (c :: ·)

/-- `urllib.parse.urlparse(...).scheme`: the lowercased part before the
first `:` when it is non-empty, starts with an ASCII letter and consists
of scheme characters; `""` otherwise. -/
def urlScheme (u : String) : String :=
  match beforeColon u.data with
  | none => ""
  | some [] => ""
  | some (c :: rest) =>
    if c.isAlpha && rest.all schemeChar then
      String.mk ((c :: rest).map Char.toLower)
    else ""

example : urlScheme "JavaScript:alert(1)" = "javascript" := by decide
example : urlScheme "https://rp.example/cb" = "https" := by decide
example : urlScheme "" = "" := by decide
example : urlsplitB (utf8Bytes "https://rp.example/cb") =
    ⟨utf8Bytes "https://rp.example/cb", [], []⟩ := by decide

/-! ## Constants

`FORBIDDEN_URI_SCHEMES` is verbatim from `authorize.py`. The enum string
values (`ResponseTypes`, `GrantTypes`, `ResponseMode`) and the scope /
prompt / PKCE constants live in `authentik.providers.oauth2.models` and
`constants`, outside the provided sources; they are modelled from the
spec (§3.1, §4.1.1, §6.1). -/

/-- `FORBIDDEN_URI_SCHEMES` from `authorize.py`. -/
def FORBIDDEN_URI_SCHEMES : List String := ["javascript", "data", "vbscript"]

/-- Modelled from the spec: `ResponseTypes.CODE`. -/
def RT_CODE : String := "code"

/-- Modelled from the spec: `ResponseTypes.ID_TOKEN`. -/
def RT_ID_TOKEN : String := "id_token"

/-- Modelled from the spec: `ResponseTypes.ID_TOKEN_TOKEN`. -/
def RT_ID_TOKEN_TOKEN : String := "id_token token"

/-- Modelled from the spec: `ResponseTypes.CODE_TOKEN`. -/
def RT_CODE_TOKEN : String := "code token"

/-- Modelled from the spec: `ResponseTypes.CODE_ID_TOKEN`. -/
def RT_CODE_ID_TOKEN : String := "code id_token"

/-- Modelled from the spec: `ResponseTypes.CODE_ID_TOKEN_TOKEN`. -/
def RT_CODE_ID_TOKEN_TOKEN : String := "code id_token token"

/-- Modelled from the spec: `GrantTypes.AUTHORIZATION_CODE`. -/
def GT_AUTHORIZATION_CODE : String := "authorization_code"

/-- Modelled from the spec: `GrantTypes.IMPLICIT`. -/
def GT_IMPLICIT : String := "implicit"

/-- Modelled from the spec: `GrantTypes.HYBRID`. -/
def GT_HYBRID : String := "hybrid"

/-- Modelled from the spec: `ResponseMode.QUERY`. -/
def RM_QUERY : String := "query"

/-- Modelled from the spec: `ResponseMode.FRAGMENT`. -/
def RM_FRAGMENT : String := "fragment"

/-- Modelled from the spec: `ResponseMode.FORM_POST`. -/
def RM_FORM_POST : String := "form_post"

/-- Modelled from the spec: `ResponseMode.values`. -/
def ResponseModeValues : List String := [RM_QUERY, RM_FRAGMENT, RM_FORM_POST]

/-- Modelled from the spec: `PROMPT_NONE`. -/
def PROMPT_NONE : String := "none"

/-- Modelled from the spec: `PROMPT_CONSENT`. -/
def PROMPT_CONSENT : String := "consent"

/-- Modelled from the spec: `PROMPT_LOGIN`. -/
def PROMPT_LOGIN : String := "login"

/-- Modelled from the spec: `SCOPE_OPENID`. -/
def SCOPE_OPENID : String := "openid"

/-- Modelled from the spec: `SCOPE_OFFLINE_ACCESS`. -/
def SCOPE_OFFLINE_ACCESS : String := "offline_access"

/-- Modelled from the spec: the GitHub-compat pseudo-scopes
(`SCOPE_GITHUB`); their exact contents are immaterial to the claims. -/
def SCOPE_GITHUB : Finset String := {"user", "user:email", "read:user", "read:org"}

/-- Modelled from the spec: `PKCE_METHOD_PLAIN`. -/
def PKCE_METHOD_PLAIN : String := "plain"

/-- Modelled from the spec: `PKCE_METHOD_S256`. -/
def PKCE_METHOD_S256 : String := "S256"

/-- Modelled from the spec: `TOKEN_TYPE` (the `token_type` payload
value). -/
def TOKEN_TYPE : String := "Bearer"

/-! ## Data model: provider configuration and request parameters -/

/-- Modelled from the spec (§3.1): a redirect-URI allow-list entry mode,
`RedirectURIMatchingMode` with values `strict` and `regex`. -/
inductive RedirectURIMatchingMode where
  | strict
  | regex
deriving DecidableEq

/-- Modelled from the spec (§3.1): one allow-list entry `RedirectURI`
(`matching_mode`, `url`). -/
structure RedirectURI where
  matching_mode : RedirectURIMatchingMode
  url : String
deriving DecidableEq

/-- The provider state the validation pipeline reads: the redirect-URI
allow-list and the configured scope-mapping names
(`ScopeMapping.objects...values_list("scope_name")`). -/
structure ProviderCfg where
  redirect_uris : List RedirectURI
  scope_names : Finset String
deriving DecidableEq

/-- A regular-expression oracle standing in for `re.fullmatch pattern
candidate`: `.error ()` models a pattern that fails to compile
(`re.error`). The view's behaviour is proved for every oracle. -/
def RegexOracle : Type := String → String → Except Unit Bool

/-- Python truthiness of an optional string (`None` and `""` falsy). -/
def optTruthy : Option String → Bool
  | none => false
  | some s => s ≠ ""

/-- `str(x) if x else ""` applied to an optional string. -/
def strOrEmpty : Option String → String
  | none => ""
  | some s => s

/-- `OAuthAuthorizationParams`: the fields read by validation and
response building. `response_mode` is `none` when the caller sent no
(or a discarded) value; `grant_type` starts out `""`. -/
structure Params where
  client_id : String
  redirect_uri : String
  response_type : String
  response_mode : Option String
  scope : Finset String
  state : Option String
  nonce : Option String
  prompt : Finset String
  grant_type : String
  request : Option String
  max_age : Option Nat
  code_challenge : Option String
  code_challenge_method : Option String
deriving DecidableEq

/-- The errors the validation pipeline raises. `ClientIdError` (unknown
client) is resolved before the pipeline modelled here and is external
database lookup. -/
inductive ValidationError where
  | redirectUriError (provided_uri : String) (allowed : List RedirectURI)
      (cause : String)
  | authorizeError (redirect_uri : String) (error : String)
      (grant_type : String) (state : Option String) (cause : Option String)
      (description : Option String)
deriving DecidableEq

instance {ε α : Type} [DecidableEq ε] [DecidableEq α] :
    DecidableEq (Except ε α) := fun x y =>
  match x, y with
  | .ok a, .ok b =>
    if h : a = b then isTrue (by rw [h])
    else isFalse (by intro hxy; cases hxy; exact h rfl)
  | .error a, .error b =>
    if h : a = b then isTrue (by rw [h])
    else isFalse (by intro hxy; cases hxy; exact h rfl)
  | .ok _, .error _ => isFalse (by intro hxy; cases hxy)
  | .error _, .ok _ => isFalse (by intro hxy; cases hxy)

theorem except_bind_ok {ε α β : Type} (a : α) (f : α → Except ε β) :
    (Except.ok a : Except ε α) >>= f = f a := rfl

theorem except_bind_error {ε α β : Type} (e : ε) (f : α → Except ε β) :
    (Except.error e : Except ε α) >>= f = Except.error e := rfl

/-! ## Validation checks (`OAuthAuthorizationParams` methods) -/

/-- Does one allow-list entry admit `uri`? Strict entries compare for
equality; regex entries use `re.fullmatch`, and a pattern that fails to
compile is logged and skipped (treated as no match). -/
def redirectUriMatches (rm : RegexOracle) (uri : String)
    (allowed : RedirectURI) : Bool :=
  match allowed.matching_mode with
  | .strict => uri = allowed.url
  | .regex =>
    match rm allowed.url uri with
    | .ok b => b
    | .error _ => false

/-- `check_redirect_uri`: missing URI fails; an empty allow-list is
auto-provisioned with a strict entry for the requested URI; then the
loop looks for a match, and only afterwards the scheme is tested against
`FORBIDDEN_URI_SCHEMES`. Returns the effective allow-list. -/
def check_redirect_uri (rm : RegexOracle) (redirect_uri : String)
    (uris : List RedirectURI) : Except ValidationError (List RedirectURI) :=
  if redirect_uri = "" then
    .error (.redirectUriError "" uris "redirect_uri_missing")
  else
    let allowed :=
      if uris.length < 1 then [⟨.strict, redirect_uri⟩] else uris
    if ¬ allowed.any (redirectUriMatches rm redirect_uri) then
      .error (.redirectUriError redirect_uri allowed "redirect_uri_no_match")
    else if urlScheme redirect_uri ∈ FORBIDDEN_URI_SCHEMES then
      .error (.redirectUriError redirect_uri allowed
        "redirect_uri_forbidden_scheme")
    else .ok allowed

/-- `check_grant`: derive `grant_type` from `response_type`; an empty
result is `unsupported_response_type` (with literal `""` grant); a
`response_mode` outside `ResponseMode.values` is rewritten to `query`,
or `fragment` for implicit/hybrid grants. -/
def check_grant (p : Params) : Except ValidationError Params :=
  let g :=
    if p.response_type = RT_CODE then GT_AUTHORIZATION_CODE
    else if p.response_type = RT_ID_TOKEN ∨
        p.response_type = RT_ID_TOKEN_TOKEN then GT_IMPLICIT
    else if p.response_type = RT_CODE_TOKEN ∨
        p.response_type = RT_CODE_ID_TOKEN ∨
        p.response_type = RT_CODE_ID_TOKEN_TOKEN then GT_HYBRID
    else p.grant_type
  if g = "" then
    .error (.authorizeError p.redirect_uri "unsupported_response_type" ""
      p.state none none)
  else
    let keep :=
      match p.response_mode with
      | some m => if ResponseModeValues.contains m then some m else none
      | none => none
    let mode :=
      match keep with
      | some m => m
      | none =>
        if g = GT_IMPLICIT ∨ g = GT_HYBRID then RM_FRAGMENT else RM_QUERY
    .ok { p with grant_type := g, response_mode := some mode }

/-- `check_scope`: an empty request adopts all configured scopes; a
request that is not a subset of the configured scopes (GitHub pseudo-
scopes excluded when `github_compat`) is silently intersected; a missing
`openid` for hybrid or id_token response types is `invalid_scope`;
`offline_access` without a code-producing `response_type` is silently
removed. -/
def check_scope (cfg : ProviderCfg) (github_compat : Bool) (p : Params) :
    Except ValidationError Params :=
  let scope0 := if p.scope = ∅ then cfg.scope_names else p.scope
  let scopes_to_check :=
    if github_compat then scope0 \ SCOPE_GITHUB else scope0
  let scope1 :=
    if ¬ scopes_to_check ⊆ cfg.scope_names then scope0 ∩ cfg.scope_names
    else scope0
  if SCOPE_OPENID ∉ scope1 ∧ (p.grant_type = GT_HYBRID ∨
      p.response_type = RT_ID_TOKEN ∨ p.response_type = RT_ID_TOKEN_TOKEN) then
    .error (.authorizeError p.redirect_uri "invalid_scope" p.grant_type
      p.state (some "scope_openid_missing") none)
  else
    let scope2 :=
      if SCOPE_OFFLINE_ACCESS ∈ scope1 ∧
          ¬ (p.response_type = RT_CODE ∨ p.response_type = RT_CODE_TOKEN ∨
            p.response_type = RT_CODE_ID_TOKEN ∨
            p.response_type = RT_CODE_ID_TOKEN_TOKEN) then
        scope1.erase SCOPE_OFFLINE_ACCESS
      else scope1
    .ok { p with scope := scope2 }

/-- `check_nonce`: a nonce is demanded only for response types that
return an `id_token` from the authorization endpoint, and only when
`openid` is in the (resolved) scope; a falsy nonce then fails with
`invalid_request` / cause `nonce_missing`. -/
def check_nonce (p : Params) : Except ValidationError Params :=
  if ¬ (p.response_type = RT_ID_TOKEN ∨ p.response_type = RT_ID_TOKEN_TOKEN ∨
      p.response_type = RT_CODE_ID_TOKEN ∨
      p.response_type = RT_CODE_ID_TOKEN_TOKEN) then .ok p
  else if SCOPE_OPENID ∉ p.scope then .ok p
  else if ¬ optTruthy p.nonce then
    .error (.authorizeError p.redirect_uri "invalid_request" p.grant_type
      p.state (some "nonce_missing") none)
  else .ok p

/-- `check_code_challenge`: a truthy challenge with a transformation
method outside `{plain, S256}` is `invalid_request`. -/
def check_code_challenge (p : Params) : Except ValidationError Params :=
  if optTruthy p.code_challenge ∧
      ¬ (p.code_challenge_method = some PKCE_METHOD_PLAIN ∨
        p.code_challenge_method = some PKCE_METHOD_S256) then
    .error (.authorizeError p.redirect_uri "invalid_request" p.grant_type
      p.state none (some ("Unsupported challenge method " ++
        strOrEmpty p.code_challenge_method)))
  else .ok p

/-- `__post_init__` after the provider lookup: redirect-URI validation,
then grant derivation, then scope resolution, then rejection of the
`request` parameter (JAR unsupported), then nonce, then PKCE. The
auto-provisioned allow-list is persisted to the provider and not read
again during validation. -/
def validateParams (rm : RegexOracle) (cfg : ProviderCfg)
    (github_compat : Bool) (p : Params) : Except ValidationError Params := do
  let _ ← check_redirect_uri rm p.redirect_uri cfg.redirect_uris
  let p1 ← check_grant p
  let p2 ← check_scope cfg github_compat p1
  if optTruthy p2.request then
    .error (.authorizeError p2.redirect_uri "request_not_supported"
      p2.grant_type p2.state none none)
  else do
    let p3 ← check_nonce p2
    check_code_challenge p3

/-! ## Fulfillment stage (`OAuthFulfillmentStage`) -/

/-- Payload keys as wire bytes. -/
def kCode : List Nat := utf8Bytes "code"

/-- `state` payload key as wire bytes. -/
def kState : List Nat := utf8Bytes "state"

/-- `access_token` payload key as wire bytes. -/
def kAccessToken : List Nat := utf8Bytes "access_token"

/-- `id_token` payload key as wire bytes. -/
def kIdToken : List Nat := utf8Bytes "id_token"

/-- `token_type` payload key as wire bytes. -/
def kTokenType : List Nat := utf8Bytes "token_type"

/-- `expires_in` payload key as wire bytes. -/
def kExpiresIn : List Nat := utf8Bytes "expires_in"

/-- `str(state) if state else ""`. -/
def pyStateStr (st : Option String) : String :=
  if optTruthy st then st.getD "" else ""

/-- The ID-token claims the response builder manipulates. -/
structure IDTok where
  nonce : Option String
  c_hash : Option (List Nat)
  at_hash : Option (List Nat)
deriving DecidableEq

/-- The persisted `AuthorizationCode` fields the builder reads. The
random `code` value and the signature-dependent `c_hash` are drawn from
the per-request fresh material. -/
structure CodeRec where
  code : List Nat
  c_hash : List Nat
  scope : Finset String
  nonce : Option String
  code_challenge : Option String
  code_challenge_method : Option String
deriving DecidableEq

/-- Per-request externally generated material: the random code value
(`uuid4().hex`), its `c_hash`, the access-token string and its
`at_hash`, the provider's token validity in seconds, and the JWS
serializer `provider.encode`. -/
structure Fresh where
  codeValue : String
  cHash : String
  tokenValue : String
  atHash : String
  expiresSeconds : Nat
  encode : IDTok → String

/-- `OAuthAuthorizationParams.create_code`: the persisted code carries
the request's scope and nonce, and both PKCE fields exactly when
challenge and method are truthy. (User, session and expiry are external
I/O.) -/
def create_code (p : Params) (fresh : Fresh) : CodeRec :=
  { code := utf8Bytes fresh.codeValue
    c_hash := utf8Bytes fresh.cHash
    scope := p.scope
    nonce := p.nonce
    code_challenge :=
      if optTruthy p.code_challenge ∧ optTruthy p.code_challenge_method then
        p.code_challenge
      else none
    code_challenge_method :=
      if optTruthy p.code_challenge ∧ optTruthy p.code_challenge_method then
        p.code_challenge_method
      else none }

/-- `create_implicit_response`: builds the fragment/form-post payload
dictionary and the final ID token. `c_hash` is set for the two
code-and-id_token response types (dereferencing the code, `none` models
the `AttributeError` on a missing one); `at_hash` is set whenever the
response carries an `access_token`; the encoded `id_token` is added for
id_token response types; the `code` parameter is added for hybrid
grants; `token_type`, `expires_in` and `state` always close the dict. -/
def create_implicit_response (p : Params) (fresh : Fresh)
    (code? : Option CodeRec) :
    Option (IDTok × List (List Nat × List Nat)) :=
  let idt0 : IDTok := { nonce := p.nonce, c_hash := none, at_hash := none }
  let withC : Option IDTok :=
    if p.response_type = RT_CODE_ID_TOKEN ∨
        p.response_type = RT_CODE_ID_TOKEN_TOKEN then
      match code? with
      | none => none
      | some c => some { idt0 with c_hash := some c.c_hash }
    else some idt0
  match withC with
  | none => none
  | some idt1 =>
    let hasTok := p.response_type = RT_ID_TOKEN_TOKEN ∨
      p.response_type = RT_CODE_ID_TOKEN_TOKEN ∨
      p.response_type = RT_CODE_TOKEN
    let idt2 :=
      if hasTok then { idt1 with at_hash := some (utf8Bytes fresh.atHash) }
      else idt1
    let hasId := p.response_type = RT_ID_TOKEN ∨
      p.response_type = RT_ID_TOKEN_TOKEN ∨
      p.response_type = RT_CODE_ID_TOKEN ∨
      p.response_type = RT_CODE_ID_TOKEN_TOKEN
    let fragTok :=
      if hasTok then [(kAccessToken, utf8Bytes fresh.tokenValue)] else []
    let fragId :=
      if hasId then [(kIdToken, utf8Bytes (fresh.encode idt2))] else []
    let tail := [(kTokenType, utf8Bytes TOKEN_TYPE),
      (kExpiresIn, utf8Bytes (toString fresh.expiresSeconds)),
      (kState, utf8Bytes (pyStateStr p.state))]
    if p.grant_type = GT_HYBRID then
      match code? with
      | none => none
      | some c => some (idt2, fragTok ++ fragId ++ [(kCode, c.code)] ++ tail)
    else some (idt2, fragTok ++ fragId ++ tail)

/-- What a response build places where. In query mode the payload is the
redirect URI's own parsed query with `code` and `state` assigned; in
fragment mode the encoded payload is appended to the existing fragment;
in form-post mode the payload goes through `redirect`'s re-parse. -/
inductive Delivery where
  | queryMode (q : List (List Nat × List (List Nat)))
  | fragmentMode (payload : List (List Nat × List Nat))
  | formPost (payload : List (List Nat × List Nat))
deriving DecidableEq

/-- The database rows a response build persists. -/
structure Minted where
  code : Option CodeRec
  token : Option IDTok
deriving DecidableEq

/-- Result of `create_response_uri`: a built response, a `NoneType`
dereference (reading `code.code` with no code), or the `OAuth2Error`
fallback re-raised as a `server_error` `AuthorizeError`. -/
inductive BuildResult where
  | ok (uri : SplitUriB) (delivery : Delivery) (minted : Minted)
  | crash
  | err (e : ValidationError)
deriving DecidableEq

/-- `create_response_uri`. A code is created exactly for
authorization-code and hybrid grants. The query branch unconditionally
reads `code.code` and assigns only `code` and `state`; the fragment and
form-post branches assign `{code, state}` for the authorization-code
grant and delegate to `create_implicit_response` otherwise. An
unrecognized response mode raises `OAuth2Error`, caught and rethrown as
`server_error`. The `state` values written in the code-grant branches
are one-element lists in the source; under `urlencode(..., doseq=True)`
they serialize identically to the flat value kept here. -/
def create_response_uri (p : Params) (fresh : Fresh) : BuildResult :=
  let uri := urlsplitB (utf8Bytes p.redirect_uri)
  let code? :=
    if p.grant_type = GT_AUTHORIZATION_CODE ∨ p.grant_type = GT_HYBRID then
      some (create_code p fresh)
    else none
  let stateB := utf8Bytes (pyStateStr p.state)
  if p.response_mode = some RM_QUERY then
    match code? with
    | none => .crash
    | some c =>
      let q := dictSet kState [stateB] (dictSet kCode [c.code]
        (parseQsGroups uri.query))
      .ok uri (.queryMode q) ⟨some c, none⟩
  else if p.response_mode = some RM_FRAGMENT then
    if p.grant_type = GT_AUTHORIZATION_CODE then
      match code? with
      | none => .crash
      | some c =>
        .ok uri (.fragmentMode [(kCode, c.code), (kState, stateB)])
          ⟨some c, none⟩
    else
      match create_implicit_response p fresh code? with
      | none => .crash
      | some (idt, payload) =>
        .ok uri (.fragmentMode payload) ⟨code?, some idt⟩
  else if p.response_mode = some RM_FORM_POST then
    if p.grant_type = GT_AUTHORIZATION_CODE then
      match code? with
      | none => .crash
      | some c =>
        .ok uri (.formPost [(kCode, c.code), (kState, stateB)])
          ⟨some c, none⟩
    else
      match create_implicit_response p fresh code? with
      | none => .crash
      | some (idt, payload) =>
        .ok uri (.formPost payload) ⟨code?, some idt⟩
  else
    .err (.authorizeError p.redirect_uri "server_error" p.grant_type
      p.state none none)

/-- What the user agent is finally given. -/
inductive Sent where
  | redirectQuery (uri : SplitUriB) (q : List (List Nat × List (List Nat)))
  | redirectFragment (uri : SplitUriB) (payload : List (List Nat × List Nat))
  | autoSubmit (url : String) (attrs : List (List Nat × List Nat))
deriving DecidableEq

/-- `OAuthFulfillmentStage.redirect`: form-post responses re-parse the
already-encoded query with `parse_qs` and flatten each value list to its
first element for the autosubmit challenge attributes (`assocFind` on
the parsed pair list realizes exactly that dict); other modes redirect
to the assembled URI. -/
def stageRedirect (p : Params) (uri : SplitUriB) (d : Delivery) : Sent :=
  match d with
  | .queryMode q => .redirectQuery uri q
  | .fragmentMode payload => .redirectFragment uri payload
  | .formPost payload => .autoSubmit p.redirect_uri (parseQsl (urlencodeB payload))

/-- The flow-plan context slots the fulfillment stage pops
(`PLAN_CONTEXT_PARAMS`, `PLAN_CONTEXT_APPLICATION`). -/
structure PlanContext where
  params : Option Params
  application : Option Unit
deriving DecidableEq

/-- Outcome of one invocation of the fulfillment stage. Only `success`
persists anything. -/
inductive FulfillOutcome where
  | badRequest
  | oauthError (redirect_uri : String) (error : String) (grant_type : String)
      (state : Option String)
  | success (sent : Sent) (minted : Minted)
  | crash
deriving DecidableEq

/-- `OAuthFulfillmentStage.get`: a missing params slot is HTTP 400
before anything else; then params and application are popped from the
plan context; a prompt containing both `none` and `consent` raises
`consent_required` before any code or token is created; otherwise the
response is built and delivered. `RedirectUriError`/`ClientIdError`
would render a bad-request page, `AuthorizeError` an OAuth error
response. -/
def fulfillmentGet (ctx : PlanContext) (fresh : Fresh) :
    FulfillOutcome × PlanContext :=
  match ctx.params with
  | none => (.badRequest, ctx)
  | some p =>
    let ctx' : PlanContext := ⟨none, none⟩
    match ctx.application with
    | none => (.crash, ctx')
    | some _ =>
      if ({PROMPT_NONE, PROMPT_CONSENT} : Finset String) ⊆ p.prompt then
        (.oauthError p.redirect_uri "consent_required" p.grant_type p.state,
          ctx')
      else
        match create_response_uri p fresh with
        | .ok uri d m => (.success (stageRedirect p uri d) m, ctx')
        | .crash => (.crash, ctx')
        | .err (.authorizeError ru er gt st _ _) =>
          (.oauthError ru er gt st, ctx')
        | .err (.redirectUriError _ _ _) => (.badRequest, ctx')

/-! ## Round-trip facts about the wire encoding -/

theorem charBytes_valid (c : Char) : ∀ b ∈ charBytes c, b < 256 := by
  have h := c.valid
  have hc : c.toNat < 1114112 := by
    unfold UInt32.isValidChar Nat.isValidChar at h
    have he : c.toNat = c.val.toNat := rfl
    rcases h with h | ⟨_, h2⟩ <;> omega
  intro b hb
  unfold charBytes cpBytes at hb
  split_ifs at hb <;> simp at hb <;> omega

theorem byteValid_utf8Bytes (s : String) : byteValid (utf8Bytes s) := by
  intro b hb
  simp only [utf8Bytes, List.mem_flatten, List.mem_map] at hb
  obtain ⟨l, ⟨c, _, rfl⟩, hbl⟩ := hb
  exact charBytes_valid c b hbl

theorem charBytes_ne_nil (c : Char) : charBytes c ≠ [] := by
  unfold charBytes cpBytes
  split_ifs <;> simp

theorem utf8Bytes_eq_nil_iff (s : String) : utf8Bytes s = [] ↔ s = "" := by
  constructor
  · intro h
    cases s with
    | mk data =>
      cases data with
      | nil => rfl
      | cons c cs =>
        exfalso
        simp only [utf8Bytes, List.map_cons, List.flatten_cons] at h
        exact charBytes_ne_nil c (List.append_eq_nil.mp h).1
  · intro h
    subst h
    rfl

theorem safeByte_ne (b : Nat) (hs : safeByte b = true) :
    b ≠ 43 ∧ b ≠ 37 ∧ b ≠ 38 ∧ b ≠ 61 := by
  refine ⟨?_, ?_, ?_, ?_⟩ <;> (intro h; subst h; simp [safeByte] at hs)

theorem hexU_lt (n : Nat) (h : n < 16) : isHexB (hexU n) = true := by
  simp only [isHexB, hexU]
  split_ifs <;> simp <;> omega

theorem hexVal_hexU (n : Nat) (h : n < 16) : hexVal (hexU n) = n := by
  simp only [hexVal, hexU]
  split_ifs <;> simp_all <;> omega

theorem mem_quoteByte (b : Nat) (hb : b < 256) :
    ∀ x ∈ quoteByte b, x ≠ 38 ∧ x ≠ 61 := by
  intro x hx
  unfold quoteByte at hx
  split_ifs at hx with h1 h2
  · simp at hx
    subst hx
    exact ⟨(safeByte_ne x h1).2.2.1, (safeByte_ne x h1).2.2.2⟩
  · simp at hx
    omega
  · have hA : ∀ m, m < 16 → hexU m ≠ 38 ∧ hexU m ≠ 61 := by
      intro m hm
      unfold hexU
      split_ifs <;> omega
    simp only [List.mem_cons, List.not_mem_nil, or_false] at hx
    rcases hx with rfl | rfl | rfl
    · omega
    · exact hA _ (by omega)
    · exact hA _ (by omega)

theorem quoteByte_ne_nil (b : Nat) : quoteByte b ≠ [] := by
  unfold quoteByte
  split_ifs <;> simp

theorem quotePlusB_eq_nil_iff (v : List Nat) : quotePlusB v = [] ↔ v = [] := by
  cases v with
  | nil => simp [quotePlusB]
  | cons b rest =>
    simp only [quotePlusB, List.map_cons, List.flatten_cons]
    constructor
    · intro h
      exact absurd (List.append_eq_nil.mp h).1 (quoteByte_ne_nil b)
    · intro h
      simp at h

theorem mem_quotePlusB (v : List Nat) (hv : byteValid v) :
    ∀ x ∈ quotePlusB v, x ≠ 38 ∧ x ≠ 61 := by
  intro x hx
  simp only [quotePlusB, List.mem_flatten, List.mem_map] at hx
  obtain ⟨l, ⟨b, hbv, rfl⟩, hxl⟩ := hx
  exact mem_quoteByte b (hv b hbv) x hxl

theorem uqAux_cons_plain (b : Nat) (rest : List Nat) :
    uqAux (b :: rest) none =
      if b = 43 then 32 :: uqAux rest none
      else if b = 37 then uqAux rest (some none)
      else b :: uqAux rest none := rfl

theorem uqAux_cons_pct (b : Nat) (rest : List Nat) :
    uqAux (b :: rest) (some none) =
      if isHexB b then uqAux rest (some (some b))
      else if b = 43 then 37 :: 32 :: uqAux rest none
      else if b = 37 then 37 :: uqAux rest (some none)
      else 37 :: b :: uqAux rest none := rfl

theorem uqAux_cons_pcth (b h : Nat) (rest : List Nat) :
    uqAux (b :: rest) (some (some h)) =
      if isHexB b then (hexVal h * 16 + hexVal b) :: uqAux rest none
      else if b = 43 then 37 :: h :: 32 :: uqAux rest none
      else if b = 37 then 37 :: h :: uqAux rest (some none)
      else 37 :: h :: b :: uqAux rest none := rfl

theorem uq_quoteByte (b : Nat) (hb : b < 256) (rest : List Nat) :
    uqAux (quoteByte b ++ rest) none = b :: uqAux rest none := by
  unfold quoteByte
  split_ifs with h1 h2
  · obtain ⟨h43, h37, -, -⟩ := safeByte_ne b h1
    simp only [List.cons_append, List.nil_append, uqAux_cons_plain,
      if_neg h43, if_neg h37]
  · subst h2
    rw [List.cons_append, List.nil_append, uqAux_cons_plain]
    simp
  · have h16 : b / 16 < 16 := by omega
    have h16' : b % 16 < 16 := by omega
    simp only [List.cons_append, List.nil_append]
    rw [uqAux_cons_plain, if_neg (by omega : ¬(37 : Nat) = 43), if_pos rfl]
    rw [uqAux_cons_pct, if_pos (hexU_lt _ h16)]
    rw [uqAux_cons_pcth, if_pos (hexU_lt _ h16')]
    rw [hexVal_hexU _ h16, hexVal_hexU _ h16']
    congr 1
    omega

theorem uq_quotePlusB (v : List Nat) (hv : byteValid v) (rest : List Nat) :
    uqAux (quotePlusB v ++ rest) none = v ++ uqAux rest none := by
  induction v with
  | nil => simp [quotePlusB]
  | cons b v' ih =>
    have hb : b < 256 := hv b (by simp)
    have hv' : byteValid v' := fun x hx => hv x (by simp [hx])
    simp only [quotePlusB, List.map_cons, List.flatten_cons, List.append_assoc]
    rw [show ((v'.map quoteByte).flatten : List Nat) = quotePlusB v' from rfl]
    rw [uq_quoteByte b hb, ih hv']
    rfl

theorem unquote_quotePlusB (v : List Nat) (hv : byteValid v) :
    unquotePlusB (quotePlusB v) = v := by
  have h := uq_quotePlusB v hv []
  simpa [unquotePlusB, uqAux] using h

theorem splitAmp_ne_nil (l : List Nat) : splitAmp l ≠ [] := by
  cases l with
  | nil => simp [splitAmp]
  | cons b rest =>
    simp only [splitAmp]
    rcases h : splitAmp rest with _ | ⟨g, gs⟩ <;> simp
    split_ifs <;> simp

theorem splitAmp_no (xs : List Nat) (h : 38 ∉ xs) : splitAmp xs = [xs] := by
  induction xs with
  | nil => rfl
  | cons b rest ih =>
    have hb : b ≠ 38 := fun hb => h (by simp [hb])
    have hrest : 38 ∉ rest := fun hr => h (by simp [hr])
    simp only [splitAmp, ih hrest]
    simp [hb]

theorem splitAmp_cons (b : Nat) (rest : List Nat) :
    splitAmp (b :: rest) =
      (match splitAmp rest with
        | [] => [[b]]
        | g :: gs => if b = 38 then [] :: g :: gs else (b :: g) :: gs) := rfl

theorem splitAmp_append (xs t : List Nat) (h : 38 ∉ xs) :
    splitAmp (xs ++ 38 :: t) = xs :: splitAmp t := by
  induction xs with
  | nil =>
    rw [List.nil_append, splitAmp_cons]
    rcases ht : splitAmp t with _ | ⟨g, gs⟩
    · exact absurd ht (splitAmp_ne_nil t)
    · simp
  | cons b rest ih =>
    have hb : b ≠ 38 := fun hb => h (by simp [hb])
    have hrest : 38 ∉ rest := fun hr => h (by simp [hr])
    rw [List.cons_append, splitAmp_cons, ih hrest]
    simp [hb]

theorem splitEq_append (xs t : List Nat) (h : 61 ∉ xs) :
    splitEq (xs ++ 61 :: t) = some (xs, t) := by
  induction xs with
  | nil => simp [splitEq]
  | cons b rest ih =>
    have hb : b ≠ 61 := fun hb => h (by simp [hb])
    have hrest : 61 ∉ rest := fun hr => h (by simp [hr])
    simp [splitEq, hb, ih hrest]

theorem mem_encPair (n v : List Nat) (hn : byteValid n) (hv : byteValid v) :
    38 ∉ encPair (n, v) := by
  intro hx
  simp only [encPair, List.mem_append, List.mem_cons] at hx
  rcases hx with h | h | h
  · exact (mem_quotePlusB n hn 38 h).1 rfl
  · omega
  · exact (mem_quotePlusB v hv 38 h).1 rfl

theorem parseField_encPair (n v : List Nat) (hn : byteValid n)
    (hv : byteValid v) :
    parseField (encPair (n, v)) = if v = [] then none else some (n, v) := by
  have h61 : 61 ∉ quotePlusB n := fun h => (mem_quotePlusB n hn 61 h).2 rfl
  show parseField (quotePlusB n ++ 61 :: quotePlusB v) = _
  unfold parseField
  rw [if_neg (by simp : ¬(quotePlusB n ++ 61 :: quotePlusB v = []))]
  rw [splitEq_append _ _ h61]
  by_cases hveq : v = []
  · subst hveq
    simp [quotePlusB]
  · rw [if_neg hveq]
    have hq : quotePlusB v ≠ [] := fun h => hveq ((quotePlusB_eq_nil_iff v).mp h)
    simp only [if_neg hq]
    rw [unquote_quotePlusB n hn, unquote_quotePlusB v hv]

theorem parseQsl_urlencodeB (l : List (List Nat × List Nat))
    (h : ∀ p ∈ l, byteValid p.1 ∧ byteValid p.2) :
    parseQsl (urlencodeB l) = l.filter (fun p => !p.2.isEmpty) := by
  induction l with
  | nil => rfl
  | cons p rest ih =>
    obtain ⟨hp1, hp2⟩ := h p (by simp)
    have hrest : ∀ q ∈ rest, byteValid q.1 ∧ byteValid q.2 :=
      fun q hq => h q (by simp [hq])
    cases rest with
    | nil =>
      show parseQsl (encPair p) = _
      unfold parseQsl
      rw [splitAmp_no _ (mem_encPair p.1 p.2 hp1 hp2)]
      simp only [List.filterMap]
      rw [show (p.1, p.2) = p from rfl] at *
      rw [parseField_encPair p.1 p.2 hp1 hp2]
      by_cases hv : p.2 = []
      · have hv' : p.2.isEmpty = true := by simp [hv]
        simp [hv, hv']
      · have hv' : p.2.isEmpty = false := by cases hq : p.2 <;> simp_all
        simp [hv, hv']
    | cons q rest' =>
      show parseQsl (encPair p ++ 38 :: urlencodeB (q :: rest')) = _
      unfold parseQsl
      rw [splitAmp_append _ _ (mem_encPair p.1 p.2 hp1 hp2)]
      simp only [List.filterMap_cons]
      have ihq := ih hrest
      unfold parseQsl at ihq
      rw [show (p.1, p.2) = p from rfl] at *
      rw [parseField_encPair p.1 p.2 hp1 hp2]
      by_cases hv : p.2 = []
      · have hv' : p.2.isEmpty = true := by simp [hv]
        simp [hv, hv', ihq]
      · have hv' : p.2.isEmpty = false := by cases hq : p.2 <;> simp_all
        simp [hv, hv', ihq]

theorem assocFind_append_of_ne (k : List Nat)
    (l₁ l₂ : List (List Nat × List Nat)) (h : ∀ p ∈ l₁, p.1 ≠ k) :
    assocFind k (l₁ ++ l₂) = assocFind k l₂ := by
  induction l₁ with
  | nil => rfl
  | cons p rest ih =>
    have hp : p.1 ≠ k := h p (by simp)
    simp only [List.cons_append, assocFind, if_neg hp]
    exact ih (fun q hq => h q (by simp [hq]))

theorem assocFindG_dictSet_self (k : List Nat) (v : List (List Nat))
    (d : List (List Nat × List (List Nat))) :
    assocFindG k (dictSet k v d) = some v := by
  induction d with
  | nil => simp [dictSet, assocFindG]
  | cons p rest ih =>
    by_cases hp : p.1 = k <;> simp [dictSet, hp, assocFindG, ih]

/-! ## Concrete fixtures used to instantiate the theorems -/

/-- A well-formed request as parsed by `from_request`, before
validation. -/
def exampleParams : Params where
  client_id := "client"
  redirect_uri := "https://rp.example/cb"
  response_type := "code"
  response_mode := none
  scope := {"openid"}
  state := some "xyz"
  nonce := some "n"
  prompt := ∅
  grant_type := ""
  request := none
  max_age := none
  code_challenge := none
  code_challenge_method := some "plain"

/-- Concrete fresh material for instantiating fulfillment runs. -/
def exampleFresh : Fresh where
  codeValue := "c0de"
  cHash := "chash"
  tokenValue := "tok"
  atHash := "athash"
  expiresSeconds := 3600
  encode := fun _ => "jwt"

/-! ## Claims -/

/-- The spec's §4.1.1 table, stated in the spec's own words: the
`response_type` values and the grant each maps to (`none` = error
`unsupported_response_type`). Reference definition for the refinement
claim C4. -/
def specGrantFor (rt : String) : Option String :=
  if rt = "code" then some "authorization_code"
  else if rt = "id_token" ∨ rt = "id_token token" then some "implicit"
  else if rt = "code token" ∨ rt = "code id_token" ∨
      rt = "code id_token token" then some "hybrid"
  else none

/-- C4: for every request (whatever its other parameters), `check_grant`
derives `grant_type` from `response_type` alone, following the §4.1.1
table: `code` ↦ authorization_code, `id_token`/`id_token token` ↦
implicit, `code token`/`code id_token`/`code id_token token` ↦ hybrid,
and any other `response_type` fails with `unsupported_response_type`. -/
theorem C4_grant_type_pure_function (p : Params) (h : p.grant_type = "") :
    (∀ g, specGrantFor p.response_type = some g →
      ∃ q, check_grant p = .ok q ∧ q.grant_type = g) ∧
    (specGrantFor p.response_type = none →
      check_grant p = .error (.authorizeError p.redirect_uri
        "unsupported_response_type" "" p.state none none)) := by
  unfold check_grant specGrantFor
  unfold RT_CODE RT_ID_TOKEN RT_ID_TOKEN_TOKEN RT_CODE_TOKEN RT_CODE_ID_TOKEN
    RT_CODE_ID_TOKEN_TOKEN GT_AUTHORIZATION_CODE GT_IMPLICIT GT_HYBRID
  rw [h]
  constructor
  · intro g hg
    split_ifs at hg with h1 h2 h3
    · obtain rfl := Option.some.inj hg
      simp [h1]
    · obtain rfl := Option.some.inj hg
      rcases h2 with h2 | h2 <;> simp [h1, h2]
    · obtain rfl := Option.some.inj hg
      rcases h3 with h3 | h3 | h3 <;> simp [h1, h2, h3]
  · intro hg
    split_ifs at hg with h1 h2 h3
    simp [h1, h2, h3]

/-- Witness for C4 at `response_type = "code id_token"`. -/
theorem C4_witness :
    ∃ q, check_grant { exampleParams with response_type := "code id_token" } =
      .ok q ∧ q.grant_type = "hybrid" :=
  (C4_grant_type_pure_function
    { exampleParams with response_type := "code id_token" } rfl).1
    "hybrid" (by decide)

/-- C5: `check_nonce` fails — with `invalid_request` and cause
`nonce_missing` — exactly when the `response_type` contains `id_token`
(one of `id_token`, `id_token token`, `code id_token`,
`code id_token token`), `openid` is in the resolved scope, and the nonce
is missing or empty; in every other case the request passes unchanged,
so no nonce is required. -/
theorem C5_nonce_required_iff (p : Params) :
    check_nonce p =
      if (p.response_type = RT_ID_TOKEN ∨ p.response_type = RT_ID_TOKEN_TOKEN ∨
          p.response_type = RT_CODE_ID_TOKEN ∨
          p.response_type = RT_CODE_ID_TOKEN_TOKEN) ∧
          SCOPE_OPENID ∈ p.scope ∧ ¬ optTruthy p.nonce then
        .error (.authorizeError p.redirect_uri "invalid_request" p.grant_type
          p.state (some "nonce_missing") none)
      else .ok p := by
  unfold check_nonce
  split_ifs <;> simp_all

/-- `check_scope` in terms of one abstract resolved scope set: the
outer branch is the `openid` check, the inner branch the
`offline_access` removal. -/
theorem check_scope_shape (cfg : ProviderCfg) (gh : Bool) (p : Params) :
    ∃ s1 : Finset String,
      check_scope cfg gh p =
        if SCOPE_OPENID ∉ s1 ∧ (p.grant_type = GT_HYBRID ∨
            p.response_type = RT_ID_TOKEN ∨
            p.response_type = RT_ID_TOKEN_TOKEN) then
          .error (.authorizeError p.redirect_uri "invalid_scope" p.grant_type
            p.state (some "scope_openid_missing") none)
        else
          .ok { p with scope :=
            (if SCOPE_OFFLINE_ACCESS ∈ s1 ∧
                ¬ (p.response_type = RT_CODE ∨
                  p.response_type = RT_CODE_TOKEN ∨
                  p.response_type = RT_CODE_ID_TOKEN ∨
                  p.response_type = RT_CODE_ID_TOKEN_TOKEN) then
              s1.erase SCOPE_OFFLINE_ACCESS
            else s1) } :=
  ⟨_, rfl⟩

/-- C7: for a request whose `response_type` produces no authorization
code (`id_token` or `id_token token`) and whose scope contains
`offline_access`, `check_scope` either succeeds with `offline_access`
silently removed from the resulting scope, or fails only for the
unrelated reason `scope_openid_missing` — the `offline_access` condition
itself never raises an error. -/
theorem C7_offline_access_removed (cfg : ProviderCfg) (gh : Bool) (p : Params)
    (h : p.response_type = RT_ID_TOKEN ∨ p.response_type = RT_ID_TOKEN_TOKEN)
    (hoff : SCOPE_OFFLINE_ACCESS ∈ p.scope) :
    (∀ q, check_scope cfg gh p = .ok q → SCOPE_OFFLINE_ACCESS ∉ q.scope) ∧
    (∀ e, check_scope cfg gh p = .error e →
      e = .authorizeError p.redirect_uri "invalid_scope" p.grant_type p.state
        (some "scope_openid_missing") none) := by
  have hnc : ¬ (p.response_type = RT_CODE ∨ p.response_type = RT_CODE_TOKEN ∨
      p.response_type = RT_CODE_ID_TOKEN ∨
      p.response_type = RT_CODE_ID_TOKEN_TOKEN) := by
    rcases h with h | h <;> rw [h] <;> decide
  obtain ⟨s1, hcs⟩ := check_scope_shape cfg gh p
  constructor
  · intro q hq
    rw [hcs] at hq
    split_ifs at hq with h1 h2
    · obtain rfl := Except.ok.inj hq
      exact fun hm => (Finset.mem_erase.mp hm).1 rfl
    · obtain rfl := Except.ok.inj hq
      exact fun hm => h2 ⟨hm, hnc⟩
  · intro e he
    rw [hcs] at he
    split_ifs at he with h1
    exact (Except.error.inj he).symm

/-- Witness for C7: `response_type = id_token` with scope
`{openid, offline_access}`, both configured; the check succeeds and the
resulting scope has lost `offline_access`. -/
theorem C7_witness :
    check_scope ⟨[], {"openid", "offline_access"}⟩ false
        { exampleParams with
          response_type := "id_token"
          scope := {"openid", "offline_access"} } =
      .ok { exampleParams with
        response_type := "id_token"
        scope := {"openid"} } ∧
    SCOPE_OFFLINE_ACCESS ∉ ({ exampleParams with
      response_type := "id_token"
      scope := ({"openid"} : Finset String) }).scope :=
  ⟨by decide,
    (C7_offline_access_removed ⟨[], {"openid", "offline_access"}⟩ false
      { exampleParams with
        response_type := "id_token"
        scope := {"openid", "offline_access"} }
      (Or.inl rfl) (by decide)).1 _ (by decide)⟩

/-- C1 counterexample: with allow-list `[(strict, https://rp.example/cb)]`
the request `redirect_uri = javascript:alert(1)` — a forbidden scheme —
fails with cause `redirect_uri_no_match`, not
`redirect_uri_forbidden_scheme`: the scheme check runs only after a
match is found, so the cause does depend on allow-list matching. -/
theorem C1_counterexample :
    check_redirect_uri (fun _ _ => .error ()) "javascript:alert(1)"
        [⟨.strict, "https://rp.example/cb"⟩] =
      .error (.redirectUriError "javascript:alert(1)"
        [⟨.strict, "https://rp.example/cb"⟩] "redirect_uri_no_match") ∧
    ("redirect_uri_no_match" : String) ≠ "redirect_uri_forbidden_scheme" :=
  ⟨by decide, by decide⟩

/-- C1 amended: a request whose redirect URI has a forbidden scheme
(javascript, data, vbscript) always fails validation; the cause is
`redirect_uri_forbidden_scheme` when the URI matches the allow-list
(including via auto-provisioning of an empty list, which always
matches), and `redirect_uri_no_match` when it does not. -/
theorem C1_forbidden_scheme_always_fails (rm : RegexOracle) (uri : String)
    (uris : List RedirectURI) (h : urlScheme uri ∈ FORBIDDEN_URI_SCHEMES) :
    check_redirect_uri rm uri uris =
      .error (.redirectUriError uri
        (if uris.length < 1 then [⟨.strict, uri⟩] else uris)
        (if (if uris.length < 1 then [⟨.strict, uri⟩] else uris).any
            (redirectUriMatches rm uri) then "redirect_uri_forbidden_scheme"
          else "redirect_uri_no_match")) := by
  have hne : uri ≠ "" := by
    intro he
    rw [he] at h
    revert h
    decide
  simp only [check_redirect_uri]
  rw [if_neg hne]
  by_cases hm : (if uris.length < 1 then [⟨.strict, uri⟩] else uris).any
    (redirectUriMatches rm uri)
  · rw [if_neg (not_not_intro hm), if_pos h, if_pos hm]
  · rw [if_pos hm, if_neg hm]

/-- Witness for C1 amended: empty allow-list, `javascript:` URI; the
list is auto-provisioned, matches, and the forbidden-scheme cause is
raised. -/
theorem C1_witness :
    check_redirect_uri (fun _ _ => .error ()) "javascript:alert(1)" [] =
      .error (.redirectUriError "javascript:alert(1)"
        [⟨.strict, "javascript:alert(1)"⟩] "redirect_uri_forbidden_scheme") :=
  (C1_forbidden_scheme_always_fails (fun _ _ => .error ())
    "javascript:alert(1)" [] (by decide)).trans (by decide)

/-- C2 counterexample request: both the redirect URI (4.1.2) and the
`response_type` (4.1.1) are invalid. -/
def reqC2 : Params :=
  { exampleParams with
    redirect_uri := "https://evil.example/cb"
    response_type := "bogus" }

/-- Provider configuration for C2. -/
def cfgC2 : ProviderCfg := ⟨[⟨.strict, "https://rp.example/cb"⟩], {"openid"}⟩

/-- C2 counterexample: on a request failing both §4.1.1 and §4.1.2, the
whole validation reports the redirect-URI error, not the
`unsupported_response_type` error the claim's order (4.1.1 first) would
predict — even though the grant check alone does fail. -/
theorem C2_counterexample :
    validateParams (fun _ _ => .error ()) cfgC2 false reqC2 =
      .error (.redirectUriError "https://evil.example/cb"
        [⟨.strict, "https://rp.example/cb"⟩] "redirect_uri_no_match") ∧
    check_grant reqC2 = .error (.authorizeError "https://evil.example/cb"
      "unsupported_response_type" "" (some "xyz") none none) ∧
    validateParams (fun _ _ => .error ()) cfgC2 false reqC2 ≠
      .error (.authorizeError "https://evil.example/cb"
        "unsupported_response_type" "" (some "xyz") none none) :=
  ⟨by decide, by decide, by decide⟩

/-- C2 amended: the validations run in the order redirect-URI (4.1.2),
response_type→grant_type (4.1.1), scope (4.1.3), presence of `request`
(4.1.5), nonce (4.1.4) — then PKCE — and the error reported is that of
the first failing validation in this order. -/
theorem C2_first_failure_order (rm : RegexOracle) (cfg : ProviderCfg)
    (gh : Bool) (p : Params) :
    (∀ e, check_redirect_uri rm p.redirect_uri cfg.redirect_uris = .error e →
      validateParams rm cfg gh p = .error e) ∧
    (∀ a e, check_redirect_uri rm p.redirect_uri cfg.redirect_uris = .ok a →
      check_grant p = .error e → validateParams rm cfg gh p = .error e) ∧
    (∀ a p1 e, check_redirect_uri rm p.redirect_uri cfg.redirect_uris = .ok a →
      check_grant p = .ok p1 → check_scope cfg gh p1 = .error e →
      validateParams rm cfg gh p = .error e) ∧
    (∀ a p1 p2, check_redirect_uri rm p.redirect_uri cfg.redirect_uris = .ok a →
      check_grant p = .ok p1 → check_scope cfg gh p1 = .ok p2 →
      optTruthy p2.request = true →
      validateParams rm cfg gh p = .error (.authorizeError p2.redirect_uri
        "request_not_supported" p2.grant_type p2.state none none)) ∧
    (∀ a p1 p2 e, check_redirect_uri rm p.redirect_uri cfg.redirect_uris = .ok a →
      check_grant p = .ok p1 → check_scope cfg gh p1 = .ok p2 →
      optTruthy p2.request = false → check_nonce p2 = .error e →
      validateParams rm cfg gh p = .error e) := by
  refine ⟨?_, ?_, ?_, ?_, ?_⟩
  · intro e h1
    simp only [validateParams, h1, except_bind_error]
  · intro a e h1 h2
    simp only [validateParams, h1, h2, except_bind_ok, except_bind_error]
  · intro a p1 e h1 h2 h3
    simp only [validateParams, h1, h2, h3, except_bind_ok, except_bind_error]
  · intro a p1 p2 h1 h2 h3 h4
    simp [validateParams, h1, h2, h3, h4, except_bind_ok]
  · intro a p1 p2 e h1 h2 h3 h4 h5
    simp [validateParams, h1, h2, h3, h4, h5, except_bind_ok,
      except_bind_error]

/-- Witness for C2 amended: the first-failure rule applied to the
counterexample request reproduces the redirect-URI error. -/
theorem C2_witness :
    validateParams (fun _ _ => .error ()) cfgC2 false reqC2 =
      .error (.redirectUriError "https://evil.example/cb"
        [⟨.strict, "https://rp.example/cb"⟩] "redirect_uri_no_match") :=
  (C2_first_failure_order (fun _ _ => .error ()) cfgC2 false reqC2).1 _
    (by decide)

/-- C6: whenever the prompt set contains both `none` and `consent`, the
fulfillment stage ends in the OAuth error `consent_required` — never in
a `success` outcome, so no code or token is minted — while initial
parameter validation accepts such a prompt set (it never inspects the
prompt for conflicts; shown on a concrete, otherwise-valid request). -/
theorem C6_none_consent_conflict (ctx : PlanContext) (fresh : Fresh)
    (p : Params) (hp : ctx.params = some p) (ha : ctx.application = some ())
    (hn : PROMPT_NONE ∈ p.prompt) (hc : PROMPT_CONSENT ∈ p.prompt) :
    fulfillmentGet ctx fresh =
      (.oauthError p.redirect_uri "consent_required" p.grant_type p.state,
        ⟨none, none⟩) ∧
    (validateParams (fun _ _ => .error ())
        ⟨[⟨.strict, "https://rp.example/cb"⟩], {"openid"}⟩ false
        { exampleParams with prompt := {"none", "consent"} }).isOk = true := by
  constructor
  · have hsub : ({PROMPT_NONE, PROMPT_CONSENT} : Finset String) ⊆ p.prompt := by
      intro x hx
      simp only [Finset.mem_insert, Finset.mem_singleton] at hx
      rcases hx with rfl | rfl
      · exact hn
      · exact hc
    simp only [fulfillmentGet, hp, ha]
    rw [if_pos hsub]
  · decide

/-- Witness for C6: a concrete plan context carrying a request with
`prompt = {none, consent}`. -/
theorem C6_witness :
    fulfillmentGet
        ⟨some { exampleParams with prompt := {"none", "consent"} }, some ()⟩
        exampleFresh =
      (.oauthError "https://rp.example/cb" "consent_required" ""
        (some "xyz"), ⟨none, none⟩) :=
  (C6_none_consent_conflict
    ⟨some { exampleParams with prompt := {"none", "consent"} }, some ()⟩
    exampleFresh { exampleParams with prompt := {"none", "consent"} }
    rfl rfl (by decide) (by decide)).1

/-- C10: the fulfillment stage pops the params object from the plan
context, so after any invocation that found params the context holds
none, and every subsequent invocation on that plan returns HTTP 400
(`badRequest`) without building a response or minting anything: at most
one response is built per planned flow. -/
theorem C10_params_popped_once (ctx : PlanContext) (fresh fresh' : Fresh)
    (p : Params) (hp : ctx.params = some p) :
    (fulfillmentGet ctx fresh).2.params = none ∧
    fulfillmentGet (fulfillmentGet ctx fresh).2 fresh' =
      (.badRequest, (fulfillmentGet ctx fresh).2) := by
  have h2 : (fulfillmentGet ctx fresh).2 = ⟨none, none⟩ := by
    simp only [fulfillmentGet, hp]
    rcases ha : ctx.application with _ | u
    · rfl
    · split_ifs
      · rfl
      · cases hb : create_response_uri p fresh with
        | ok uri d m => simp [hb]
        | crash => simp [hb]
        | err e => cases e <;> simp [hb]
  refine ⟨by rw [h2], by rw [h2]; rfl⟩

/-- Witness for C10: the second invocation on the context of the C6
witness run is a 400. -/
theorem C10_witness :
    (fulfillmentGet ⟨some exampleParams, some ()⟩ exampleFresh).2.params =
      none ∧
    fulfillmentGet (fulfillmentGet ⟨some exampleParams, some ()⟩
        exampleFresh).2 exampleFresh =
      (.badRequest,
        (fulfillmentGet ⟨some exampleParams, some ()⟩ exampleFresh).2) :=
  C10_params_popped_once ⟨some exampleParams, some ()⟩ exampleFresh
    exampleFresh exampleParams rfl

/-- C9: with effective response mode `query` the response builder
unconditionally dereferences the authorization code: for an implicit
grant (which creates no code) the build crashes on the missing code
instead of producing an OAuth response, and for a hybrid grant the
emitted payload is exactly `{code, state}` (on a redirect URI without
its own query string) — never `access_token` or `id_token`. -/
theorem C9_query_mode_reads_code (p : Params) (fresh : Fresh)
    (hm : p.response_mode = some RM_QUERY) :
    (p.grant_type = GT_IMPLICIT → create_response_uri p fresh = .crash) ∧
    (p.grant_type = GT_HYBRID →
      (urlsplitB (utf8Bytes p.redirect_uri)).query = [] →
      create_response_uri p fresh =
        .ok (urlsplitB (utf8Bytes p.redirect_uri))
          (.queryMode [(kCode, [(create_code p fresh).code]),
            (kState, [utf8Bytes (pyStateStr p.state)])])
          ⟨some (create_code p fresh), none⟩) := by
  constructor
  · intro hg
    simp only [create_response_uri, hm, hg]
    rfl
  · intro hg hq
    simp only [create_response_uri, hm, hg, hq]
    rfl

/-- C9 witness request, hybrid grant with caller-supplied query mode. -/
def reqC9h : Params :=
  { exampleParams with
    response_type := "code id_token"
    response_mode := some "query"
    grant_type := "hybrid" }

/-- C9 witness request, implicit grant with caller-supplied query
mode. -/
def reqC9i : Params :=
  { exampleParams with
    response_type := "id_token"
    response_mode := some "query"
    grant_type := "implicit" }

/-- Witness for C9: the hybrid request delivers exactly `code` and
`state`; the implicit request crashes on the absent code. -/
theorem C9_witness :
    create_response_uri reqC9h exampleFresh =
      .ok (urlsplitB (utf8Bytes "https://rp.example/cb"))
        (.queryMode [(kCode, [utf8Bytes "c0de"]),
          (kState, [utf8Bytes "xyz"])])
        ⟨some (create_code reqC9h exampleFresh), none⟩ ∧
    create_response_uri reqC9i exampleFresh = .crash := by
  constructor
  · exact ((C9_query_mode_reads_code reqC9h exampleFresh rfl).2 rfl
      (by decide)).trans (by decide)
  · exact (C9_query_mode_reads_code reqC9i exampleFresh rfl).1 rfl

/-- C8 counterexample request: `response_type = code token`, a hybrid
grant whose response carries an access token but no ID token. -/
def reqC8 : Params :=
  { exampleParams with
    response_type := "code token"
    response_mode := some "fragment"
    grant_type := "hybrid" }

/-- C8 counterexample: for `response_type = code token` the constructed
ID token carries `at_hash` (`isSome = true`) although the response
payload contains an `access_token` but no `id_token` — refuting
"`at_hash` exactly when the response includes both an access_token and
an id_token". -/
theorem C8_counterexample :
    ((create_implicit_response reqC8 exampleFresh
        (some (create_code reqC8 exampleFresh))).map
      (fun r => (r.1.at_hash.isSome, (assocFind kAccessToken r.2).isSome,
        (assocFind kIdToken r.2).isSome))) = some (true, true, false) := by
  decide

/-- The constant closing entries of every implicit/hybrid payload:
`token_type`, `expires_in`, `state`. -/
def implicitTail (p : Params) (fresh : Fresh) : List (List Nat × List Nat) :=
  [(kTokenType, utf8Bytes TOKEN_TYPE),
    (kExpiresIn, utf8Bytes (toString fresh.expiresSeconds)),
    (kState, utf8Bytes (pyStateStr p.state))]

@[simp] theorem kA_ne_kC : kAccessToken ≠ kCode := by decide

@[simp] theorem kI_ne_kC : kIdToken ≠ kCode := by decide

@[simp] theorem kT_ne_kC : kTokenType ≠ kCode := by decide

@[simp] theorem kE_ne_kC : kExpiresIn ≠ kCode := by decide

@[simp] theorem kS_ne_kC : kState ≠ kCode := by decide

@[simp] theorem kA_ne_kI : kAccessToken ≠ kIdToken := by decide

@[simp] theorem kC_ne_kI : kCode ≠ kIdToken := by decide

@[simp] theorem kT_ne_kI : kTokenType ≠ kIdToken := by decide

@[simp] theorem kE_ne_kI : kExpiresIn ≠ kIdToken := by decide

@[simp] theorem kS_ne_kI : kState ≠ kIdToken := by decide

@[simp] theorem kI_ne_kA : kIdToken ≠ kAccessToken := by decide

@[simp] theorem kC_ne_kA : kCode ≠ kAccessToken := by decide

@[simp] theorem kT_ne_kA : kTokenType ≠ kAccessToken := by decide

@[simp] theorem kE_ne_kA : kExpiresIn ≠ kAccessToken := by decide

@[simp] theorem kS_ne_kA : kState ≠ kAccessToken := by decide

@[simp] theorem kA_ne_kS : kAccessToken ≠ kState := by decide

@[simp] theorem kI_ne_kS : kIdToken ≠ kState := by decide

@[simp] theorem kC_ne_kS : kCode ≠ kState := by decide

@[simp] theorem kT_ne_kS : kTokenType ≠ kState := by decide

@[simp] theorem kE_ne_kS : kExpiresIn ≠ kState := by decide

/-- C8 amended: in `create_implicit_response`, `c_hash` is set exactly
when the payload carries both `code` and `id_token`; the `id_token` is
placed exactly for response types containing `id_token`; `code` is
added exactly for hybrid grants; and `at_hash` is set exactly when the
payload carries an `access_token` — so restricted to responses that do
carry an `id_token`, `at_hash` is present iff the response also carries
an `access_token` (for `code token` the constructed ID token carries
`at_hash` although no `id_token` is delivered). -/
theorem C8_hash_claims (p : Params) (fresh : Fresh) (c : CodeRec)
    (hrt : p.response_type = RT_ID_TOKEN ∨
      p.response_type = RT_ID_TOKEN_TOKEN ∨
      p.response_type = RT_CODE_TOKEN ∨
      p.response_type = RT_CODE_ID_TOKEN ∨
      p.response_type = RT_CODE_ID_TOKEN_TOKEN)
    (hg : p.grant_type = GT_HYBRID ↔
      (p.response_type = RT_CODE_TOKEN ∨
        p.response_type = RT_CODE_ID_TOKEN ∨
        p.response_type = RT_CODE_ID_TOKEN_TOKEN)) :
    ∃ idt payload,
      create_implicit_response p fresh
        (if p.grant_type = GT_HYBRID then some c else none) =
        some (idt, payload) ∧
      (idt.c_hash.isSome ↔ ((assocFind kCode payload).isSome ∧
        (assocFind kIdToken payload).isSome)) ∧
      ((assocFind kIdToken payload).isSome ↔
        (p.response_type = RT_ID_TOKEN ∨
          p.response_type = RT_ID_TOKEN_TOKEN ∨
          p.response_type = RT_CODE_ID_TOKEN ∨
          p.response_type = RT_CODE_ID_TOKEN_TOKEN)) ∧
      ((assocFind kCode payload).isSome ↔ p.grant_type = GT_HYBRID) ∧
      (idt.at_hash.isSome ↔ (assocFind kAccessToken payload).isSome) ∧
      ((assocFind kIdToken payload).isSome →
        (idt.at_hash.isSome ↔ (assocFind kAccessToken payload).isSome)) := by
  rcases hrt with h | h | h | h | h
  · have hng : ¬ p.grant_type = GT_HYBRID := fun hh => by
      rw [h] at hg
      exact absurd (hg.mp hh) (by decide)
    rw [h, if_neg hng]
    refine ⟨⟨p.nonce, none, none⟩,
      (kIdToken, utf8Bytes (fresh.encode ⟨p.nonce, none, none⟩)) ::
        implicitTail p fresh, ?_, ?_, ?_, ?_, ?_, ?_⟩
    · simp [create_implicit_response, h, hng, implicitTail, RT_ID_TOKEN,
        RT_ID_TOKEN_TOKEN, RT_CODE_TOKEN, RT_CODE_ID_TOKEN,
        RT_CODE_ID_TOKEN_TOKEN]
    · simp [assocFind, implicitTail, RT_ID_TOKEN, RT_ID_TOKEN_TOKEN,
        RT_CODE_TOKEN, RT_CODE_ID_TOKEN, RT_CODE_ID_TOKEN_TOKEN]
    · simp [assocFind, implicitTail, RT_ID_TOKEN, RT_ID_TOKEN_TOKEN,
        RT_CODE_TOKEN, RT_CODE_ID_TOKEN, RT_CODE_ID_TOKEN_TOKEN]
    · exact iff_of_false (by simp [assocFind, implicitTail, RT_ID_TOKEN, RT_ID_TOKEN_TOKEN,
        RT_CODE_TOKEN, RT_CODE_ID_TOKEN, RT_CODE_ID_TOKEN_TOKEN]) hng
    · simp [assocFind, implicitTail, RT_ID_TOKEN, RT_ID_TOKEN_TOKEN,
        RT_CODE_TOKEN, RT_CODE_ID_TOKEN, RT_CODE_ID_TOKEN_TOKEN]
    · simp [assocFind, implicitTail, RT_ID_TOKEN, RT_ID_TOKEN_TOKEN,
        RT_CODE_TOKEN, RT_CODE_ID_TOKEN, RT_CODE_ID_TOKEN_TOKEN]
  · have hng : ¬ p.grant_type = GT_HYBRID := fun hh => by
      rw [h] at hg
      exact absurd (hg.mp hh) (by decide)
    rw [h, if_neg hng]
    refine ⟨⟨p.nonce, none, some (utf8Bytes fresh.atHash)⟩,
      (kAccessToken, utf8Bytes fresh.tokenValue) ::
        (kIdToken, utf8Bytes
          (fresh.encode ⟨p.nonce, none, some (utf8Bytes fresh.atHash)⟩)) ::
        implicitTail p fresh, ?_, ?_, ?_, ?_, ?_, ?_⟩
    · simp [create_implicit_response, h, hng, implicitTail, RT_ID_TOKEN,
        RT_ID_TOKEN_TOKEN, RT_CODE_TOKEN, RT_CODE_ID_TOKEN,
        RT_CODE_ID_TOKEN_TOKEN]
    · simp [assocFind, implicitTail, RT_ID_TOKEN, RT_ID_TOKEN_TOKEN,
        RT_CODE_TOKEN, RT_CODE_ID_TOKEN, RT_CODE_ID_TOKEN_TOKEN]
    · simp [assocFind, implicitTail, RT_ID_TOKEN, RT_ID_TOKEN_TOKEN,
        RT_CODE_TOKEN, RT_CODE_ID_TOKEN, RT_CODE_ID_TOKEN_TOKEN]
    · exact iff_of_false (by simp [assocFind, implicitTail, RT_ID_TOKEN, RT_ID_TOKEN_TOKEN,
        RT_CODE_TOKEN, RT_CODE_ID_TOKEN, RT_CODE_ID_TOKEN_TOKEN]) hng
    · simp [assocFind, implicitTail, RT_ID_TOKEN, RT_ID_TOKEN_TOKEN,
        RT_CODE_TOKEN, RT_CODE_ID_TOKEN, RT_CODE_ID_TOKEN_TOKEN]
    · simp [assocFind, implicitTail, RT_ID_TOKEN, RT_ID_TOKEN_TOKEN,
        RT_CODE_TOKEN, RT_CODE_ID_TOKEN, RT_CODE_ID_TOKEN_TOKEN]
  · have hgy : p.grant_type = GT_HYBRID := hg.mpr (by rw [h]; decide)
    rw [h, hgy, if_pos rfl]
    refine ⟨⟨p.nonce, none, some (utf8Bytes fresh.atHash)⟩,
      (kAccessToken, utf8Bytes fresh.tokenValue) :: (kCode, c.code) ::
        implicitTail p fresh, ?_, ?_, ?_, ?_, ?_, ?_⟩
    · simp [create_implicit_response, h, hgy, implicitTail, RT_ID_TOKEN,
        RT_ID_TOKEN_TOKEN, RT_CODE_TOKEN, RT_CODE_ID_TOKEN,
        RT_CODE_ID_TOKEN_TOKEN]
    · simp [assocFind, implicitTail, RT_ID_TOKEN, RT_ID_TOKEN_TOKEN,
        RT_CODE_TOKEN, RT_CODE_ID_TOKEN, RT_CODE_ID_TOKEN_TOKEN]
    · simp [assocFind, implicitTail, RT_ID_TOKEN, RT_ID_TOKEN_TOKEN,
        RT_CODE_TOKEN, RT_CODE_ID_TOKEN, RT_CODE_ID_TOKEN_TOKEN]
    · exact iff_of_true (by simp [assocFind, implicitTail, RT_ID_TOKEN, RT_ID_TOKEN_TOKEN,
        RT_CODE_TOKEN, RT_CODE_ID_TOKEN, RT_CODE_ID_TOKEN_TOKEN]) rfl
    · simp [assocFind, implicitTail, RT_ID_TOKEN, RT_ID_TOKEN_TOKEN,
        RT_CODE_TOKEN, RT_CODE_ID_TOKEN, RT_CODE_ID_TOKEN_TOKEN]
    · simp [assocFind, implicitTail, RT_ID_TOKEN, RT_ID_TOKEN_TOKEN,
        RT_CODE_TOKEN, RT_CODE_ID_TOKEN, RT_CODE_ID_TOKEN_TOKEN]
  · have hgy : p.grant_type = GT_HYBRID := hg.mpr (by rw [h]; decide)
    rw [h, hgy, if_pos rfl]
    refine ⟨⟨p.nonce, some c.c_hash, none⟩,
      (kIdToken, utf8Bytes (fresh.encode ⟨p.nonce, some c.c_hash, none⟩)) ::
        (kCode, c.code) :: implicitTail p fresh, ?_, ?_, ?_, ?_, ?_, ?_⟩
    · simp [create_implicit_response, h, hgy, implicitTail, RT_ID_TOKEN,
        RT_ID_TOKEN_TOKEN, RT_CODE_TOKEN, RT_CODE_ID_TOKEN,
        RT_CODE_ID_TOKEN_TOKEN]
    · simp [assocFind, implicitTail, RT_ID_TOKEN, RT_ID_TOKEN_TOKEN,
        RT_CODE_TOKEN, RT_CODE_ID_TOKEN, RT_CODE_ID_TOKEN_TOKEN]
    · simp [assocFind, implicitTail, RT_ID_TOKEN, RT_ID_TOKEN_TOKEN,
        RT_CODE_TOKEN, RT_CODE_ID_TOKEN, RT_CODE_ID_TOKEN_TOKEN]
    · exact iff_of_true (by simp [assocFind, implicitTail, RT_ID_TOKEN, RT_ID_TOKEN_TOKEN,
        RT_CODE_TOKEN, RT_CODE_ID_TOKEN, RT_CODE_ID_TOKEN_TOKEN]) rfl
    · simp [assocFind, implicitTail, RT_ID_TOKEN, RT_ID_TOKEN_TOKEN,
        RT_CODE_TOKEN, RT_CODE_ID_TOKEN, RT_CODE_ID_TOKEN_TOKEN]
    · simp [assocFind, implicitTail, RT_ID_TOKEN, RT_ID_TOKEN_TOKEN,
        RT_CODE_TOKEN, RT_CODE_ID_TOKEN, RT_CODE_ID_TOKEN_TOKEN]
  · have hgy : p.grant_type = GT_HYBRID := hg.mpr (by rw [h]; decide)
    rw [h, hgy, if_pos rfl]
    refine ⟨⟨p.nonce, some c.c_hash, some (utf8Bytes fresh.atHash)⟩,
      (kAccessToken, utf8Bytes fresh.tokenValue) ::
        (kIdToken, utf8Bytes (fresh.encode
          ⟨p.nonce, some c.c_hash, some (utf8Bytes fresh.atHash)⟩)) ::
        (kCode, c.code) :: implicitTail p fresh, ?_, ?_, ?_, ?_, ?_, ?_⟩
    · simp [create_implicit_response, h, hgy, implicitTail, RT_ID_TOKEN,
        RT_ID_TOKEN_TOKEN, RT_CODE_TOKEN, RT_CODE_ID_TOKEN,
        RT_CODE_ID_TOKEN_TOKEN]
    · simp [assocFind, implicitTail, RT_ID_TOKEN, RT_ID_TOKEN_TOKEN,
        RT_CODE_TOKEN, RT_CODE_ID_TOKEN, RT_CODE_ID_TOKEN_TOKEN]
    · simp [assocFind, implicitTail, RT_ID_TOKEN, RT_ID_TOKEN_TOKEN,
        RT_CODE_TOKEN, RT_CODE_ID_TOKEN, RT_CODE_ID_TOKEN_TOKEN]
    · exact iff_of_true (by simp [assocFind, implicitTail, RT_ID_TOKEN, RT_ID_TOKEN_TOKEN,
        RT_CODE_TOKEN, RT_CODE_ID_TOKEN, RT_CODE_ID_TOKEN_TOKEN]) rfl
    · simp [assocFind, implicitTail, RT_ID_TOKEN, RT_ID_TOKEN_TOKEN,
        RT_CODE_TOKEN, RT_CODE_ID_TOKEN, RT_CODE_ID_TOKEN_TOKEN]
    · simp [assocFind, implicitTail, RT_ID_TOKEN, RT_ID_TOKEN_TOKEN,
        RT_CODE_TOKEN, RT_CODE_ID_TOKEN, RT_CODE_ID_TOKEN_TOKEN]

/-- C8 witness request: the full hybrid `code id_token token`. -/
def reqC8t : Params :=
  { exampleParams with
    response_type := "code id_token token"
    response_mode := some "fragment"
    grant_type := "hybrid" }

/-- Witness for C8 amended: for `code id_token token` the response
carries code, id_token and access_token, and the ID token carries both
`c_hash` and `at_hash`. -/
theorem C8_witness :
    ∃ idt payload,
      create_implicit_response reqC8t exampleFresh
        (some (create_code reqC8t exampleFresh)) = some (idt, payload) ∧
      idt.c_hash.isSome ∧
      (assocFind kCode payload).isSome ∧
      (assocFind kIdToken payload).isSome ∧
      (idt.at_hash.isSome ↔ (assocFind kAccessToken payload).isSome) := by
  obtain ⟨idt, payload, heq, hch, hid, hcode, hat, -⟩ :=
    C8_hash_claims reqC8t exampleFresh (create_code reqC8t exampleFresh)
      (by decide) (by decide)
  exact ⟨idt, payload, heq,
    hch.mpr ⟨hcode.mpr rfl, hid.mpr (by decide)⟩,
    hcode.mpr rfl, hid.mpr (by decide), hat⟩

/-- A payload whose last entry is the `state` pair, all earlier entries
having keys other than `state` and byte-valid contents. -/
def statePayload (st : List Nat) (l : List (List Nat × List Nat)) : Prop :=
  ∃ pre, l = pre ++ [(kState, st)] ∧
    ∀ kv ∈ pre, kv.1 ≠ kState ∧ byteValid kv.1 ∧ byteValid kv.2

theorem statePayload_base (st : List Nat) : statePayload st [(kState, st)] :=
  ⟨[], rfl, by simp⟩

theorem pre_step (k v st : List Nat) (l : List (List Nat × List Nat))
    (hk : k ≠ kState) (hbk : byteValid k) (hbv : byteValid v)
    (hl : statePayload st l) : statePayload st ((k, v) :: l) := by
  obtain ⟨pre, rfl, hmem⟩ := hl
  refine ⟨(k, v) :: pre, rfl, ?_⟩
  intro kv h'
  rcases List.mem_cons.mp h' with rfl | h'
  · exact ⟨hk, hbk, hbv⟩
  · exact hmem kv h'

/-- Every payload produced by `create_implicit_response` ends with the
`state` entry, and everything before it has a key other than `state`
and byte-valid contents (given the stored code value is byte-valid). -/
theorem implicit_payload_split (p : Params) (fresh : Fresh)
    (code? : Option CodeRec) (idt : IDTok)
    (payload : List (List Nat × List Nat))
    (hcb : ∀ cc, code? = some cc → byteValid cc.code)
    (h : create_implicit_response p fresh code? = some (idt, payload)) :
    statePayload (utf8Bytes (pyStateStr p.state)) payload := by
  by_cases h1 : (p.response_type = RT_CODE_ID_TOKEN ∨
      p.response_type = RT_CODE_ID_TOKEN_TOKEN) <;>
  by_cases h2 : p.grant_type = GT_HYBRID <;>
  by_cases hT : (p.response_type = RT_ID_TOKEN_TOKEN ∨
      p.response_type = RT_CODE_ID_TOKEN_TOKEN ∨
      p.response_type = RT_CODE_TOKEN) <;>
  by_cases hI : (p.response_type = RT_ID_TOKEN ∨
      p.response_type = RT_ID_TOKEN_TOKEN) <;>
  rcases hc : code? with _ | cc <;>
  (try have hbcode : byteValid cc.code := hcb cc hc) <;>
  simp only [create_implicit_response, h1, h2, hT, hI, hc, if_true, if_false,
    iff_true, iff_false, or_true, true_or, or_false, false_or,
    List.nil_append, List.cons_append, List.singleton_append,
    List.append_nil] at h <;>
  first
  | exact Option.noConfusion h
  | (rw [Option.some.injEq, Prod.mk.injEq] at h
     obtain ⟨-, rfl⟩ := h
     repeat
       first
       | exact statePayload_base _
       | (refine pre_step _ _ _ _ ?_ ?_ ?_ ?_
          · decide
          · decide
          · first
            | exact byteValid_utf8Bytes _
            | exact hbcode))

/-- Looking up `state` in such a payload finds exactly the state
value. -/
theorem assocFind_statePayload (st : List Nat)
    (l : List (List Nat × List Nat)) (h : statePayload st l) :
    assocFind kState l = some st := by
  obtain ⟨pre, rfl, hmem⟩ := h
  rw [assocFind_append_of_ne _ _ _ (fun kv hkv => (hmem kv hkv).1)]
  simp [assocFind]

/-- Looking up `state` after the form-post re-parse
(`parse_qs ∘ urlencode`) finds the state value when it is non-empty and
nothing at all when it is empty. -/
theorem assocFind_statePayload_reparsed (st : List Nat)
    (l : List (List Nat × List Nat)) (hst : byteValid st)
    (h : statePayload st l) :
    assocFind kState (parseQsl (urlencodeB l)) =
      if st = [] then none else some st := by
  obtain ⟨pre, rfl, hmem⟩ := h
  rw [parseQsl_urlencodeB _ ?hval]
  case hval =>
    intro pp hpp
    rcases List.mem_append.mp hpp with hpp | hpp
    · exact ⟨(hmem pp hpp).2.1, (hmem pp hpp).2.2⟩
    · simp only [List.mem_singleton] at hpp
      subst hpp
      exact ⟨(by decide : byteValid kState), hst⟩
  rw [List.filter_append]
  rw [assocFind_append_of_ne _ _ _
    (fun kv hkv => (hmem kv (List.mem_filter.mp hkv).1).1)]
  by_cases hs : st = []
  · subst hs
    simp [List.filter, assocFind]
  · have hs' : st.isEmpty = false := by cases st <;> simp_all
    simp [List.filter, hs', assocFind, hs]

/-- C3 counterexample request: form-post delivery, absent state. -/
def reqC3 : Params :=
  { exampleParams with
    state := none
    response_mode := some "form_post"
    grant_type := "authorization_code" }

/-- C3 counterexample: a successful form-post response for a request
without `state` delivers autosubmit form fields containing only `code` —
the `state` field is omitted entirely (dropped by the `parse_qs`
re-parse in `redirect`), not delivered as the empty string. -/
theorem C3_counterexample :
    fulfillmentGet ⟨some reqC3, some ()⟩ exampleFresh =
      (.success (.autoSubmit "https://rp.example/cb"
          [(kCode, utf8Bytes "c0de")])
        ⟨some (create_code reqC3 exampleFresh), none⟩, ⟨none, none⟩) ∧
    assocFind kState [(kCode, utf8Bytes "c0de")] = none :=
  ⟨by decide, by decide⟩

/-- C3 amended: in every successful response build, the `state` the RP
receives equals exactly the state sent (empty-coerced when absent) in
query and fragment modes, where it is never omitted; in form-post mode a
non-empty state round-trips exactly through the `urlencode`/`parse_qs`
detour, but an absent or empty state is omitted from the delivered form
fields. -/
theorem C3_state_delivery (p : Params) (fresh : Fresh) (uri : SplitUriB)
    (d : Delivery) (m : Minted)
    (h : create_response_uri p fresh = .ok uri d m) :
    (∀ q, d = .queryMode q →
      assocFindG kState q = some [utf8Bytes (pyStateStr p.state)]) ∧
    (∀ payload, d = .fragmentMode payload →
      assocFind kState payload = some (utf8Bytes (pyStateStr p.state))) ∧
    (∀ payload, d = .formPost payload →
      stageRedirect p uri (.formPost payload) =
        .autoSubmit p.redirect_uri (parseQsl (urlencodeB payload)) ∧
      assocFind kState (parseQsl (urlencodeB payload)) =
        (if pyStateStr p.state = "" then none
          else some (utf8Bytes (pyStateStr p.state)))) := by
  have hcb : ∀ cc, (if p.grant_type = GT_AUTHORIZATION_CODE ∨
      p.grant_type = GT_HYBRID then some (create_code p fresh) else none) =
      some cc → byteValid cc.code := by
    intro cc hcc
    by_cases hgo : (p.grant_type = GT_AUTHORIZATION_CODE ∨
        p.grant_type = GT_HYBRID)
    · rw [if_pos hgo] at hcc
      obtain rfl := Option.some.inj hcc
      exact byteValid_utf8Bytes _
    · rw [if_neg hgo] at hcc
      exact Option.noConfusion hcc
  have hstate_if : if pyStateStr p.state = "" then
      (utf8Bytes (pyStateStr p.state) = []) else
      ¬(utf8Bytes (pyStateStr p.state) = []) := by
    split_ifs with hs
    · exact (utf8Bytes_eq_nil_iff _).mpr hs
    · exact fun hn => hs ((utf8Bytes_eq_nil_iff _).mp hn)
  have hcodeSP : statePayload (utf8Bytes (pyStateStr p.state))
      [(kCode, (create_code p fresh).code),
        (kState, utf8Bytes (pyStateStr p.state))] := by
    refine ⟨[(kCode, (create_code p fresh).code)], rfl, ?_⟩
    intro kv hkv
    simp only [List.mem_singleton] at hkv
    subst hkv
    exact ⟨kC_ne_kS, (by decide : byteValid kCode), byteValid_utf8Bytes _⟩
  have hreparse : ∀ l, statePayload (utf8Bytes (pyStateStr p.state)) l →
      assocFind kState (parseQsl (urlencodeB l)) =
        (if pyStateStr p.state = "" then none
          else some (utf8Bytes (pyStateStr p.state))) := by
    intro l hl
    rw [assocFind_statePayload_reparsed _ _ (byteValid_utf8Bytes _) hl]
    split_ifs with h1 h2 h3
    · rfl
    · exact absurd ((utf8Bytes_eq_nil_iff _).mp h1) h2
    · exact absurd ((utf8Bytes_eq_nil_iff _).mpr h3) h1
    · rfl
  by_cases hq : p.response_mode = some RM_QUERY
  · by_cases hgo : (p.grant_type = GT_AUTHORIZATION_CODE ∨
        p.grant_type = GT_HYBRID)
    · simp only [create_response_uri, if_pos hq, if_pos hgo] at h
      rw [BuildResult.ok.injEq] at h
      obtain ⟨rfl, rfl, rfl⟩ := h
      refine ⟨?_, ?_, ?_⟩
      · intro q hq'
        rw [Delivery.queryMode.injEq] at hq'
        obtain rfl := hq'
        exact assocFindG_dictSet_self _ _ _
      · intro payload hd
        exact Delivery.noConfusion hd
      · intro payload hd
        exact Delivery.noConfusion hd
    · simp only [create_response_uri, if_pos hq, if_neg hgo] at h
      exact BuildResult.noConfusion h
  · by_cases hf : p.response_mode = some RM_FRAGMENT
    · by_cases hga : p.grant_type = GT_AUTHORIZATION_CODE
      · simp only [create_response_uri, if_neg hq, if_pos hf, if_pos hga,
          if_pos (Or.inl hga)] at h
        rw [BuildResult.ok.injEq] at h
        obtain ⟨rfl, rfl, rfl⟩ := h
        refine ⟨fun q hq' => Delivery.noConfusion hq', ?_,
          fun payload hd => Delivery.noConfusion hd⟩
        intro payload hd
        rw [Delivery.fragmentMode.injEq] at hd
        obtain rfl := hd
        exact assocFind_statePayload _ _ hcodeSP
      · simp only [create_response_uri, if_neg hq, if_pos hf,
          if_neg hga] at h
        rcases hci : create_implicit_response p fresh
            (if p.grant_type = GT_AUTHORIZATION_CODE ∨
              p.grant_type = GT_HYBRID then some (create_code p fresh)
            else none) with _ | pr
        · rw [hci] at h
          exact BuildResult.noConfusion h
        · obtain ⟨idt', payload'⟩ := pr
          rw [hci] at h
          rw [BuildResult.ok.injEq] at h
          obtain ⟨rfl, rfl, rfl⟩ := h
          have hsp := implicit_payload_split p fresh _ idt' payload' hcb hci
          refine ⟨fun q hq' => Delivery.noConfusion hq', ?_,
            fun payload hd => Delivery.noConfusion hd⟩
          intro payload hd
          rw [Delivery.fragmentMode.injEq] at hd
          obtain rfl := hd
          exact assocFind_statePayload _ _ hsp
    · by_cases hp2 : p.response_mode = some RM_FORM_POST
      · by_cases hga : p.grant_type = GT_AUTHORIZATION_CODE
        · simp only [create_response_uri, if_neg hq, if_neg hf, if_pos hp2,
            if_pos hga, if_pos (Or.inl hga)] at h
          rw [BuildResult.ok.injEq] at h
          obtain ⟨rfl, rfl, rfl⟩ := h
          refine ⟨fun q hq' => Delivery.noConfusion hq',
            fun payload hd => Delivery.noConfusion hd, ?_⟩
          intro payload hd
          rw [Delivery.formPost.injEq] at hd
          obtain rfl := hd
          exact ⟨rfl, hreparse _ hcodeSP⟩
        · simp only [create_response_uri, if_neg hq, if_neg hf, if_pos hp2,
            if_neg hga] at h
          rcases hci : create_implicit_response p fresh
              (if p.grant_type = GT_AUTHORIZATION_CODE ∨
                p.grant_type = GT_HYBRID then some (create_code p fresh)
              else none) with _ | pr
          · rw [hci] at h
            exact BuildResult.noConfusion h
          · obtain ⟨idt', payload'⟩ := pr
            rw [hci] at h
            rw [BuildResult.ok.injEq] at h
            obtain ⟨rfl, rfl, rfl⟩ := h
            have hsp := implicit_payload_split p fresh _ idt' payload' hcb hci
            refine ⟨fun q hq' => Delivery.noConfusion hq',
              fun payload hd => Delivery.noConfusion hd, ?_⟩
            intro payload hd
            rw [Delivery.formPost.injEq] at hd
            obtain rfl := hd
            exact ⟨rfl, hreparse _ hsp⟩
      · simp only [create_response_uri, if_neg hq, if_neg hf,
          if_neg hp2] at h
        exact BuildResult.noConfusion h

/-- C3 witness request: form-post delivery with state `xyz`. -/
def reqC3w : Params :=
  { exampleParams with
    response_mode := some "form_post"
    grant_type := "authorization_code" }

/-- Witness for C3 amended: a non-empty state survives the form-post
re-parse exactly. -/
theorem C3_witness :
    assocFind kState (parseQsl (urlencodeB
        [(kCode, utf8Bytes "c0de"), (kState, utf8Bytes "xyz")])) =
      some (utf8Bytes "xyz") := by
  have h := (C3_state_delivery reqC3w exampleFresh
      (urlsplitB (utf8Bytes "https://rp.example/cb"))
      (.formPost [(kCode, utf8Bytes "c0de"), (kState, utf8Bytes "xyz")])
      ⟨some (create_code reqC3w exampleFresh), none⟩ (by decide)).2.2
      [(kCode, utf8Bytes "c0de"), (kState, utf8Bytes "xyz")] rfl
  exact h.2.trans (by decide)

end Authorize
